import Mathlib

/-!
Shallow embedding of the `gpt3_rs` client library and verification of its
specification.  The embedding covers the `Model` registry (`src/model.rs`),
the classifications payload and its builder (`src/api/classifications.rs`),
and the file-content operation (`src/api/files/content.rs`).
-/

/-- The constant `OPENAI_URL` from `src/main.rs`. -/
def OPENAI_URL : String := "https://api.openai.com/v1"

/-- The `Model` enum from `src/model.rs`: a closed set of engine names. -/
inductive Model where
  | Ada
  | Babbage
  | Curie
  | Davinci
  deriving DecidableEq, Repr

/-- `Model::url` from `src/model.rs`: per-variant engine URL with the
action string appended. -/
def Model.url (m : Model) (action : String) : String :=
  (match m with
    | .Ada => OPENAI_URL ++ "/engines/text-ada-001/"
    | .Babbage => OPENAI_URL ++ "/engines/text-babbage-001"
    | .Curie => OPENAI_URL ++ "/engines/text-curie-001"
    | .Davinci => OPENAI_URL ++ "/engines/text-davinci-002") ++ action

/-- The per-variant path fragment used by `Model::url` (read off the four
format strings in `src/model.rs`; the `Ada` arm carries a trailing slash). -/
def Model.fragment : Model → String
  | .Ada => "/engines/text-ada-001/"
  | .Babbage => "/engines/text-babbage-001"
  | .Curie => "/engines/text-curie-001"
  | .Davinci => "/engines/text-davinci-002"

/-- Serialization of a `Model` to its JSON string, per
`#[serde(rename_all = "lowercase")]` on the enum in `src/model.rs`. -/
def Model.toJsonString : Model → String
  | .Ada => "ada"
  | .Babbage => "babbage"
  | .Curie => "curie"
  | .Davinci => "davinci"

/-- Deserialization of a `Model` from its JSON string: serde accepts
exactly the lowercase renamed variant names of `src/model.rs`. -/
def Model.fromJsonString (s : String) : Option Model :=
  if s = "ada" then some .Ada
  else if s = "babbage" then some .Babbage
  else if s = "curie" then some .Curie
  else if s = "davinci" then some .Davinci
  else none

/-- A model of serde_json values, the wire encoding used by the library. -/
inductive Json where
  | null
  | bool (b : Bool)
  | int (n : Int)
  | num (x : Float)
  | str (s : String)
  | arr (elems : List Json)
  | obj (fields : List (String × Json))

namespace Classifications

/-- The classifications `Request` payload from `src/api/classifications.rs`.
`IntoVec<T>` is an ergonomic wrapper around `Vec<T>`, embedded as `List`;
`u8`/`u64` become `Nat`, `i8` becomes `Int`, `f64` becomes `Float`, and the
`HashMap<String, i8>` of `logit_bias` becomes an association list. -/
structure Request where
  model : Model
  query : String
  examples : Option (List (List String))
  file : Option String
  labels : Option (List String)
  search_model : Option Model
  temperature : Option Float
  logprobs : Option Nat
  max_examples : Option Nat
  logit_bias : Option (List (String × Int))
  return_prompt : Option Bool
  return_metadata : Option Bool
  expand : Option (List String)
  user : Option String

/-- One field of the serialized object under
`#[serde(skip_serializing_if = "Option::is_none")]`: a `None` value
contributes no key at all, a `Some` value contributes exactly one. -/
def optField {α : Type} (key : String) (enc : α → Json) : Option α → List (String × Json)
  | none => []
  | some x => [(key, enc x)]

/-- Serde serialization of the classifications `Request`: the derived
`Serialize` emits the two required fields and then each optional field in
declaration order, skipping those that are `None`. -/
def serialize (r : Request) : List (String × Json) :=
  [("model", Json.str r.model.toJsonString),
   ("query", Json.str r.query)]
  ++ optField "examples" (fun e => Json.arr (e.map (fun ex => Json.arr (ex.map Json.str)))) r.examples
  ++ optField "file" Json.str r.file
  ++ optField "labels" (fun ls => Json.arr (ls.map Json.str)) r.labels
  ++ optField "search_model" (fun m => Json.str m.toJsonString) r.search_model
  ++ optField "temperature" Json.num r.temperature
  ++ optField "logprobs" (fun n => Json.int (Int.ofNat n)) r.logprobs
  ++ optField "max_examples" (fun n => Json.int (Int.ofNat n)) r.max_examples
  ++ optField "logit_bias" (fun b => Json.obj (b.map (fun p => (p.1, Json.int p.2)))) r.logit_bias
  ++ optField "return_prompt" Json.bool r.return_prompt
  ++ optField "return_metadata" Json.bool r.return_metadata
  ++ optField "expand" (fun ls => Json.arr (ls.map Json.str)) r.expand
  ++ optField "user" Json.str r.user

/-- The keys of the serialized request object. -/
def keys (r : Request) : List String := (serialize r).map Prod.fst

/-- The key contributed to the serialized object by one optional field. -/
def optKey {α : Type} (k : String) : Option α → List String
  | none => []
  | some _ => [k]

/-- The `Builder` generated by `#[derive(Builder)]` on the classifications
`Request`: each payload field is stored as an optional staged value, `none`
meaning the corresponding setter was never called (for the optional payload
fields the staged value is the payload field's own `Option`, matching the
`default` + `strip_option` setter configuration). -/
structure Builder where
  model : Option Model := none
  query : Option String := none
  examples : Option (List (List String)) := none
  file : Option String := none
  labels : Option (List String) := none
  search_model : Option Model := none
  temperature : Option Float := none
  logprobs : Option Nat := none
  max_examples : Option Nat := none
  logit_bias : Option (List (String × Int)) := none
  return_prompt : Option Bool := none
  return_metadata : Option Bool := none
  expand : Option (List String) := none
  user : Option String := none

/-- `Builder::build` as generated by derive_builder: it borrows the builder,
checks the fields without a default (`model`, `query`) in declaration order,
and on a missing one fails with an error naming that field; otherwise it
assembles the `Request`, with unset optional fields defaulting to `None`. -/
def Builder.build (b : Builder) : Except String Request :=
  match b.model with
  | none => .error "model"
  | some m =>
    match b.query with
    | none => .error "query"
    | some q =>
      .ok { model := m, query := q, examples := b.examples, file := b.file,
            labels := b.labels, search_model := b.search_model,
            temperature := b.temperature, logprobs := b.logprobs,
            max_examples := b.max_examples, logit_bias := b.logit_bias,
            return_prompt := b.return_prompt,
            return_metadata := b.return_metadata,
            expand := b.expand, user := b.user }

/-- `RequestInfo::url` for the classifications `Request` in
`src/api/classifications.rs`: a fixed path under the base URL, ignoring
the payload. -/
def Request.url (_ : Request) : String := OPENAI_URL ++ "/classifications"

end Classifications

/-- An HTTP method, as selected on the reqwest client. -/
inductive Method where
  | get
  | post
  | delete
  deriving DecidableEq, Repr

/-- The `Client` as used by `src/api/files/content.rs`: it carries the
bearer credential returned by `Client::gpt_token`. -/
structure Client where
  gpt_token : String
  deriving DecidableEq, Repr

/-- The state accumulated by the reqwest request-builder calls visible in
`src/api/files/content.rs`: `.get(url)` fixes the method and URL, and
`.bearer_auth(token)` attaches the bearer credential. -/
structure RequestBuilder where
  method : Method
  url : String
  bearer : Option String
  deriving DecidableEq, Repr

namespace FilesContent

/-- The file-content `Request` from `src/api/files/content.rs`. -/
structure Request where
  file_id : String
  deriving DecidableEq, Repr

/-- `Request::new` from `src/api/files/content.rs`. -/
def Request.new (file_id : String) : Request := ⟨file_id⟩

/-- `BuildRequest::build_request` from `src/api/files/content.rs`: a GET to
`{OPENAI_URL}/files/{file_id}/content` with the client's bearer token. -/
def Request.build_request (r : Request) (c : Client) : RequestBuilder :=
  { method := Method.get,
    url := OPENAI_URL ++ "/files/" ++ r.file_id ++ "/content",
    bearer := some c.gpt_token }

/-- The file-content `Response` from `src/api/files/content.rs`, a
`#[serde(transparent)]` wrapper around one string. -/
structure Response where
  content : String
  deriving DecidableEq, Repr

/-- `Request::request` from `src/api/files/content.rs`: the raw transport
outcome of `request_raw` (a reqwest error, or the whole body as a string)
is propagated on error and otherwise wrapped whole into `Response`. -/
def Request.request (_ : Request) (raw : Except String String) : Except String Response :=
  match raw with
  | .error e => .error e
  | .ok body => .ok { content := body }

end FilesContent

/-- The error taxonomy of dispatch: a transport failure, or a body that did
not match the expected response shape. -/
inductive ApiError where
  | transport (e : String)
  | deserialization (body : String)
  deriving DecidableEq, Repr

/-- Modelled from the spec: the generic dispatch path (`Request::request`
in `src/client.rs`) is not among the given sources; per §4.3/§7 of the
spec, a transport failure is propagated as a transport error, and a
successful transport reply whose body fails to parse as the operation's
typed response is reported as a deserialization error distinct from a
transport error. Parsing is abstracted as a function returning `none` on
a malformed body. -/
def dispatch {R : Type} (parse : String → Option R)
    (transportResult : Except String String) : Except ApiError R :=
  match transportResult with
  | .error e => .error (ApiError.transport e)
  | .ok body =>
    match parse body with
    | none => .error (ApiError.deserialization body)
    | some r => .ok r

/-- A key is among the keys contributed by one optional field exactly when
it is that field's key and the field is set. -/
theorem Classifications.mem_optKey {α : Type} (k k0 : String) (o : Option α) :
    k0 ∈ Classifications.optKey k o ↔ k0 = k ∧ o.isSome := by
  cases o <;> simp [Classifications.optKey]

/-- The keys contributed by one optional field are its `optKey`. -/
theorem Classifications.map_fst_optField {α : Type} (k : String) (enc : α → Json)
    (o : Option α) :
    (Classifications.optField k enc o).map Prod.fst = Classifications.optKey k o := by
  cases o <;> simp [Classifications.optField, Classifications.optKey]

/-- The serialized key list, segment by segment. -/
theorem Classifications.keys_eq (r : Classifications.Request) :
    Classifications.keys r = ["model", "query"]
      ++ Classifications.optKey "examples" r.examples
      ++ Classifications.optKey "file" r.file
      ++ Classifications.optKey "labels" r.labels
      ++ Classifications.optKey "search_model" r.search_model
      ++ Classifications.optKey "temperature" r.temperature
      ++ Classifications.optKey "logprobs" r.logprobs
      ++ Classifications.optKey "max_examples" r.max_examples
      ++ Classifications.optKey "logit_bias" r.logit_bias
      ++ Classifications.optKey "return_prompt" r.return_prompt
      ++ Classifications.optKey "return_metadata" r.return_metadata
      ++ Classifications.optKey "expand" r.expand
      ++ Classifications.optKey "user" r.user := by
  simp [Classifications.keys, Classifications.serialize, List.map_append,
    Classifications.map_fst_optField]

/-- A pair contributed by an optional field has the field's encoder applied
to some value as its second component. -/
theorem Classifications.snd_mem_optField {α : Type} {p : String × Json} {k : String}
    {enc : α → Json} {o : Option α} (h : p ∈ Classifications.optField k enc o) :
    ∃ x, p.2 = enc x := by
  cases o with
  | none => simp [Classifications.optField] at h
  | some x =>
      simp [Classifications.optField] at h
      exact ⟨x, by rw [h]⟩

/-- C3 fails as stated: for the `Ada` variant the code appends
`/engines/text-ada-001/` (trailing slash), so `url` does not equal the
base URL followed by `/engines/text-ada-001` and the action. -/
theorem model_url_ada_counterexample :
    Model.url Model.Ada "/search"
      ≠ OPENAI_URL ++ "/engines/text-ada-001" ++ "/search"
    ∧ Model.url Model.Ada "/search"
      = "https://api.openai.com/v1/engines/text-ada-001//search" := by
  constructor
  · decide
  · rfl

/-- C3 (amended): `Model::url m a` is the base URL followed by the
variant's fixed fragment followed by `a`, where `Ada`'s fragment is
`/engines/text-ada-001/` (with a trailing slash) and the other variants
map to `/engines/text-babbage-001`, `/engines/text-curie-001`,
`/engines/text-davinci-002`; distinct variants have distinct fragments,
and no fragment is a prefix of another variant's fragment. -/
theorem model_url_fixed_mapping (m : Model) (a : String) :
    m.url a = OPENAI_URL ++ m.fragment ++ a
    ∧ Model.fragment Model.Ada = "/engines/text-ada-001/"
    ∧ Model.fragment Model.Babbage = "/engines/text-babbage-001"
    ∧ Model.fragment Model.Curie = "/engines/text-curie-001"
    ∧ Model.fragment Model.Davinci = "/engines/text-davinci-002"
    ∧ (∀ m1 m2 : Model, m1.fragment = m2.fragment → m1 = m2)
    ∧ (∀ m1 m2 : Model, m1 ≠ m2 →
        List.isPrefixOf (m1.fragment).data (m2.fragment).data = false) := by
  refine ⟨?_, rfl, rfl, rfl, rfl, ?_, ?_⟩
  · cases m <;> rfl
  · intro m1 m2 h
    cases m1 <;> cases m2 <;> first | rfl | (exact absurd h (by decide))
  · intro m1 m2 h
    cases m1 <;> cases m2 <;> first | (exact absurd rfl h) | decide

/-- C10: serializing a `Model` yields the lowercase variant name, and
deserializing that string returns the original variant
(serialize-then-deserialize is the identity on `Model`). -/
theorem model_serde_roundtrip :
    Model.toJsonString Model.Ada = "ada"
    ∧ Model.toJsonString Model.Babbage = "babbage"
    ∧ Model.toJsonString Model.Curie = "curie"
    ∧ Model.toJsonString Model.Davinci = "davinci"
    ∧ ∀ m : Model, Model.fromJsonString (Model.toJsonString m) = some m := by
  refine ⟨rfl, rfl, rfl, rfl, ?_⟩
  intro m
  cases m <;> rfl

/-- C1: the serialized classifications request contains an optional field's
key exactly when that field is `Some`; a field left `None` is omitted
entirely, and no field is ever serialized as `null`. -/
theorem classifications_serialize_omits_unset (r : Classifications.Request) :
    ("examples" ∈ Classifications.keys r ↔ r.examples.isSome)
    ∧ ("file" ∈ Classifications.keys r ↔ r.file.isSome)
    ∧ ("labels" ∈ Classifications.keys r ↔ r.labels.isSome)
    ∧ ("search_model" ∈ Classifications.keys r ↔ r.search_model.isSome)
    ∧ ("temperature" ∈ Classifications.keys r ↔ r.temperature.isSome)
    ∧ ("logprobs" ∈ Classifications.keys r ↔ r.logprobs.isSome)
    ∧ ("max_examples" ∈ Classifications.keys r ↔ r.max_examples.isSome)
    ∧ ("logit_bias" ∈ Classifications.keys r ↔ r.logit_bias.isSome)
    ∧ ("return_prompt" ∈ Classifications.keys r ↔ r.return_prompt.isSome)
    ∧ ("return_metadata" ∈ Classifications.keys r ↔ r.return_metadata.isSome)
    ∧ ("expand" ∈ Classifications.keys r ↔ r.expand.isSome)
    ∧ ("user" ∈ Classifications.keys r ↔ r.user.isSome)
    ∧ (∀ p ∈ Classifications.serialize r, p.2 ≠ Json.null) := by
  have hnull : ∀ p ∈ Classifications.serialize r, p.2 ≠ Json.null := by
    intro p hp
    simp only [Classifications.serialize, List.mem_append, or_assoc] at hp
    rcases hp with hp | hp | hp | hp | hp | hp | hp | hp | hp | hp | hp | hp | hp
    all_goals first
      | (obtain ⟨x, hx⟩ := Classifications.snd_mem_optField hp
         rw [hx]
         simp)
      | (simp at hp
         rcases hp with rfl | rfl <;> simp)
  refine ⟨?_, ?_, ?_, ?_, ?_, ?_, ?_, ?_, ?_, ?_, ?_, ?_, hnull⟩
  all_goals
    simp +decide [Classifications.keys_eq, List.mem_append,
      Classifications.mem_optKey]

/-- C2: a classifications builder missing a required field (`model` or
`query`) fails to build with a construction error naming a missing
required field, and never yields a `Request`. -/
theorem classifications_build_missing_required (b : Classifications.Builder)
    (h : b.model = none ∨ b.query = none) :
    (∃ f, b.build = Except.error f
        ∧ ((f = "model" ∧ b.model = none) ∨ (f = "query" ∧ b.query = none)))
    ∧ ∀ r, b.build ≠ Except.ok r := by
  rcases hm : b.model with _ | m
  · refine ⟨⟨"model", by simp [Classifications.Builder.build, hm], Or.inl ⟨rfl, rfl⟩⟩, ?_⟩
    intro r
    simp [Classifications.Builder.build, hm]
  · rcases hq : b.query with _ | q
    · refine ⟨⟨"query", by simp [Classifications.Builder.build, hm, hq],
        Or.inr ⟨rfl, rfl⟩⟩, ?_⟩
      intro r
      simp [Classifications.Builder.build, hm, hq]
    · rcases h with h | h
      · rw [hm] at h
        exact absurd h (by simp)
      · rw [hq] at h
        exact absurd h (by simp)

/-- Witness for C2 at the default (empty) builder. -/
theorem classifications_build_missing_required_witness :
    (∃ f, Classifications.Builder.build { } = Except.error f
        ∧ ((f = "model" ∧ ({ } : Classifications.Builder).model = none)
            ∨ (f = "query" ∧ ({ } : Classifications.Builder).query = none)))
    ∧ ∀ r, Classifications.Builder.build { } ≠ Except.ok r :=
  classifications_build_missing_required { } (Or.inl rfl)

/-- C5: with `model` and `query` set, setting both `examples` and `file`
still lets `build` succeed — mutual exclusivity is not checked — and the
resulting payload carries, and serializes, both fields. -/
theorem classifications_build_allows_examples_and_file
    (b : Classifications.Builder) (m : Model) (q : String)
    (e : List (List String)) (fl : String)
    (hm : b.model = some m) (hq : b.query = some q)
    (he : b.examples = some e) (hf : b.file = some fl) :
    ∃ r, b.build = Except.ok r
      ∧ r.examples = some e
      ∧ r.file = some fl
      ∧ "examples" ∈ Classifications.keys r
      ∧ "file" ∈ Classifications.keys r := by
  refine ⟨{ model := m, query := q, examples := b.examples, file := b.file,
            labels := b.labels, search_model := b.search_model,
            temperature := b.temperature, logprobs := b.logprobs,
            max_examples := b.max_examples, logit_bias := b.logit_bias,
            return_prompt := b.return_prompt,
            return_metadata := b.return_metadata,
            expand := b.expand, user := b.user }, ?_, he, hf, ?_, ?_⟩
  · simp [Classifications.Builder.build, hm, hq]
  · simp +decide [Classifications.keys_eq, List.mem_append,
      Classifications.mem_optKey, he]
  · simp +decide [Classifications.keys_eq, List.mem_append,
      Classifications.mem_optKey, hf]

/-- Witness for C5 at a concrete builder with both `examples` and `file`. -/
theorem classifications_build_allows_examples_and_file_witness :
    ∃ r, Classifications.Builder.build
        { model := some Model.Curie, query := some "It is a rainy day",
          examples := some [["A happy moment", "Positive"]],
          file := some "file-123" } = Except.ok r
      ∧ r.examples = some [["A happy moment", "Positive"]]
      ∧ r.file = some "file-123"
      ∧ "examples" ∈ Classifications.keys r
      ∧ "file" ∈ Classifications.keys r :=
  classifications_build_allows_examples_and_file
    { model := some Model.Curie, query := some "It is a rainy day",
      examples := some [["A happy moment", "Positive"]],
      file := some "file-123" }
    Model.Curie "It is a rainy day" [["A happy moment", "Positive"]] "file-123"
    rfl rfl rfl rfl

/-- C8: with the required fields set, `build` succeeds, and building twice
with no intervening mutation returns the same `Request` (build borrows the
builder, so it is repeatable and deterministic). -/
theorem classifications_build_idempotent (b : Classifications.Builder)
    (m : Model) (q : String) (hm : b.model = some m) (hq : b.query = some q) :
    ∃ r, b.build = Except.ok r ∧ ∀ r2, b.build = Except.ok r2 → r2 = r := by
  have hb : b.build = Except.ok
      { model := m, query := q, examples := b.examples, file := b.file,
        labels := b.labels, search_model := b.search_model,
        temperature := b.temperature, logprobs := b.logprobs,
        max_examples := b.max_examples, logit_bias := b.logit_bias,
        return_prompt := b.return_prompt,
        return_metadata := b.return_metadata,
        expand := b.expand, user := b.user } := by
    simp [Classifications.Builder.build, hm, hq]
  refine ⟨_, hb, ?_⟩
  intro r2 h2
  rw [hb] at h2
  exact (Except.ok.inj h2).symm

/-- Witness for C8 at a concrete builder with both required fields. -/
theorem classifications_build_idempotent_witness :
    ∃ r, Classifications.Builder.build
        { model := some Model.Ada, query := some "hello" } = Except.ok r
      ∧ ∀ r2, Classifications.Builder.build
          { model := some Model.Ada, query := some "hello" } = Except.ok r2 → r2 = r :=
  classifications_build_idempotent
    { model := some Model.Ada, query := some "hello" } Model.Ada "hello" rfl rfl

/-- C9: the dispatch URL of every classifications request is the fixed
`{OPENAI_URL}/classifications`, independent of the payload's fields. -/
theorem classifications_url_fixed (r : Classifications.Request) :
    r.url = "https://api.openai.com/v1/classifications"
    ∧ ∀ r2 : Classifications.Request, r.url = r2.url :=
  ⟨rfl, fun _ => rfl⟩

/-- C4: for every file id and client, the file-content `build_request`
issues a GET whose URL is the base URL followed by `/files/`, the
payload's `file_id` and `/content`, with the client's bearer token
attached. -/
theorem files_content_build_request (r : FilesContent.Request) (c : Client) :
    (r.build_request c).method = Method.get
    ∧ (r.build_request c).url = OPENAI_URL ++ "/files/" ++ r.file_id ++ "/content"
    ∧ (r.build_request c).bearer = some c.gpt_token :=
  ⟨rfl, rfl, rfl⟩

/-- C6: on a successful transport call, the file-content response is a
transparent wrapper whose single `content` field is the entire body as one
string. -/
theorem files_content_response_transparent (r : FilesContent.Request) (body : String) :
    ∃ res, r.request (Except.ok body) = Except.ok res ∧ res.content = body :=
  ⟨⟨body⟩, rfl, rfl⟩

/-- C7: when the transport succeeds but the body does not parse as the
expected response shape, dispatch returns a deserialization error, which
is distinct from every transport error and is never a success value. -/
theorem dispatch_malformed_deserialization_error {R : Type}
    (parse : String → Option R) (body : String) (h : parse body = none) :
    dispatch parse (Except.ok body) = Except.error (ApiError.deserialization body)
    ∧ (∀ e, ApiError.deserialization body ≠ ApiError.transport e)
    ∧ (∀ r, dispatch parse (Except.ok body) ≠ Except.ok r) := by
  refine ⟨?_, ?_, ?_⟩ <;> simp [dispatch, h]

/-- Witness for C7: dispatching a body that is not a valid `Model` string
through the `Model` parser yields the deserialization error. -/
theorem dispatch_malformed_deserialization_error_witness :
    Model.fromJsonString "not a model" = none
    ∧ (dispatch Model.fromJsonString (Except.ok "not a model")
          = Except.error (ApiError.deserialization "not a model")
        ∧ (∀ e, ApiError.deserialization "not a model" ≠ ApiError.transport e)
        ∧ (∀ r, dispatch Model.fromJsonString (Except.ok "not a model")
            ≠ Except.ok r)) :=
  ⟨by decide,
   dispatch_malformed_deserialization_error Model.fromJsonString "not a model" (by decide)⟩
